import Mathlib

/-!
Verification development for the v10-fehlerrechnung measurement pipeline.

The computation layer (src/data_parser.py and src/error_analysis.py) works on
floating-point values where NaN is the "undefined" marker.  We embed such a
value as `Option ℝ`: `none` is the NaN marker, `some x` a defined value.
Python's NaN-propagating arithmetic becomes explicit matching on `Option`.
-/

namespace V10

/-- Python's `max` over a nonempty list of floats; the `[]` case (which raises
in Python and is always guarded by callers) is mapped to `0`. -/
def listMax : List ℝ → ℝ
  | [] => 0
  | x :: xs => xs.foldl max x

/-- Python's `min` over a nonempty list of floats; the `[]` case (which raises
in Python and is always guarded by callers) is mapped to `0`. -/
def listMin : List ℝ → ℝ
  | [] => 0
  | x :: xs => xs.foldl min x

/-- `allSome parts = some xs` iff every entry of `parts` is defined; models the
`try: list(map(float, s.split('-'))) except ValueError` block of
`parse_range`, which fails as soon as one hyphen-separated part fails to
parse as a float. -/
def allSome : List (Option ℝ) → Option (List ℝ)
  | [] => some []
  | none :: _ => none
  | some x :: rest => (allSome rest).map (x :: ·)

/-- Embedding of `data_parser.parse_range`.  The input models the per-part
float-parse results of the raw string: Python evaluates
`s.split('-')` and `float` on each part, so a string is represented by the
list of `float`-parse outcomes of its hyphen-separated parts (`some x` when
the part is numeric, `none` otherwise).  A hyphen-free string has exactly one
part (`'-' in s` is false iff the split has a single part), e.g. `"3.0-3.3"`
becomes `[some 3.0, some 3.3]`, `"616"` becomes `[some 616]`, `"abc"` becomes
`[none]`, and `"-5"` (whose split is `['', '5']`) becomes `[none, some 5]`.
With a hyphen present the code returns `(np.mean(parts), (max-min)/2)` when
all parts parse and `(nan, nan)` otherwise; without a hyphen it returns
`(float(s), 0.0)` when the whole parses and `(nan, nan)` otherwise. -/
noncomputable def parse_range (parts : List (Option ℝ)) : Option ℝ × Option ℝ :=
  if 2 ≤ parts.length then
    match allSome parts with
    | some xs => (some (xs.sum / (xs.length : ℝ)), some ((listMax xs - listMin xs) / 2))
    | none => (none, none)
  else
    match parts with
    | [some x] => (some x, some 0)
    | _ => (none, none)

/-- `error_analysis.g`, the gravitational constant. -/
noncomputable def g : ℝ := 9.81

/-- Embedding of `error_analysis.calculate_mu_and_delta_mu`.  The source
returns `(nan, nan)` when `Fr_avg` or `Fn_avg` is NaN or `Fn_avg == 0`;
otherwise `mu = fr_avg / fn_avg` and
`delta_mu = sqrt((1/fn_avg*fr_delta)^2 + (fr_avg/fn_avg^2*fn_delta)^2)`,
which is itself NaN when either delta input is NaN (NaN-propagating float
arithmetic). -/
noncomputable def calculate_mu_and_delta_mu
    (fr_avg fr_delta fn_avg fn_delta : Option ℝ) : Option ℝ × Option ℝ :=
  match fr_avg, fn_avg with
  | some frv, some fnv =>
    if fnv = 0 then (none, none)
    else
      (some (frv / fnv),
        match fr_delta, fn_delta with
        | some dfr, some dfn =>
            some (Real.sqrt ((1 / fnv * dfr) ^ 2 + (frv / fnv ^ 2 * dfn) ^ 2))
        | _, _ => none)
  | _, _ => (none, none)

/-- Embedding of `error_analysis.calculate_normal_force_and_delta`: NaN mass
center gives `(nan, nan)`; otherwise the mass is converted from grams to kg
and multiplied by `g`, with a NaN mass delta coerced to `0.0`. -/
noncomputable def calculate_normal_force_and_delta
    (mass_g_avg mass_g_delta : Option ℝ) : Option ℝ × Option ℝ :=
  match mass_g_avg with
  | none => (none, none)
  | some m =>
    let mass_kg_avg := m / 1000
    let mass_kg_delta := match mass_g_delta with
      | some d => d / 1000
      | none => (0 : ℝ)
    (some (mass_kg_avg * g), some (mass_kg_delta * g))

/-- Embedding of `error_analysis.calculate_std_dev_and_sem`: drop NaN entries
(`data.dropna()`); with fewer than 2 remaining values return `(nan, nan)`;
otherwise `std = sqrt(sum((xi - mean)^2) / N)` (N in the denominator) and
`sem = std / sqrt(N)`. -/
noncomputable def calculate_std_dev_and_sem (data : List (Option ℝ)) :
    Option ℝ × Option ℝ :=
  let v := data.filterMap id
  let N := v.length
  if N < 2 then (none, none)
  else
    let mean_val := v.sum / (N : ℝ)
    let std_dev := Real.sqrt ((v.map fun x => (x - mean_val) ^ 2).sum / (N : ℝ))
    (some std_dev, some (std_dev / Real.sqrt (N : ℝ)))

/-- Embedding of `error_analysis.calculate_confidence_interval` at the fixed
default confidence level: `tppf` abstracts `scipy.stats.t.ppf((1+cl)/2, dof)`
as a function of the degrees of freedom `N - 1`; `N < 2` gives NaN, and a NaN
`sem` propagates to a NaN interval. -/
noncomputable def calculate_confidence_interval (tppf : ℕ → ℝ)
    (sem : Option ℝ) (N : ℕ) : Option ℝ :=
  if N < 2 then none
  else sem.map fun s => tppf (N - 1) * s

/-- Result record of `calculate_error_method_1`
(`{'mean_fr', 'std_dev_fr', 'sem_fr', 'c95_fr'}`). -/
structure Method1Result where
  mean_fr : Option ℝ
  std_dev_fr : Option ℝ
  sem_fr : Option ℝ
  c95_fr : Option ℝ

/-- Embedding of `error_analysis.calculate_error_method_1` (aggregation
Policy A): flatten every `(lower, upper)` pair into one pooled list,
drop NaNs, and with `N ≥ 2` compute the mean, the population standard
deviation, the SEM and the t-based 95% confidence interval over the pooled
sample; with `N < 2` every field is NaN. -/
noncomputable def calculate_error_method_1 (tppf : ℕ → ℝ)
    (fr_values : List (Option ℝ × Option ℝ)) : Method1Result :=
  let all_measurements := fr_values.flatMap fun p => [p.1, p.2]
  let data_series := all_measurements.filterMap id
  let N := data_series.length
  if N < 2 then ⟨none, none, none, none⟩
  else
    let mean_fr := data_series.sum / (N : ℝ)
    let sd_sem := calculate_std_dev_and_sem (data_series.map some)
    let c95 := calculate_confidence_interval tppf sd_sem.2 N
    ⟨some mean_fr, sd_sem.1, sd_sem.2, c95⟩

/-- The statistics fields of a `calculate_error_method_2` result: the source
returns the literal string `'nicht betrachtet'` for them in the normal case
and omits the keys entirely in the all-NaN case. -/
inductive StatMark where
  | absent
  | nichtBetrachtet
deriving DecidableEq

/-- A `(lower, upper)` pair is kept by `calculate_error_method_2` only when
neither bound is NaN (`pd.isna` checks in the loop). -/
def valid_pair (p : Option ℝ × Option ℝ) : Option (ℝ × ℝ) :=
  match p with
  | (some l, some u) => some (l, u)
  | _ => none

/-- Result record of `calculate_error_method_2`. -/
structure Method2Result where
  mean_fr : Option ℝ
  delta_fr : Option ℝ
  std_dev_fr : StatMark
  sem_fr : StatMark
  c95_fr : StatMark

/-- Embedding of `error_analysis.calculate_error_method_2` (aggregation
Policy B): keep the pairs with both bounds defined, take midpoints and
ranges; if no pair survives return NaN/NaN with the statistics keys absent;
otherwise mean = average of midpoints, delta = half the largest range, and
the statistics fields carry the `'nicht betrachtet'` marker. -/
noncomputable def calculate_error_method_2
    (fr_interval_ranges : List (Option ℝ × Option ℝ)) : Method2Result :=
  let valid := fr_interval_ranges.filterMap valid_pair
  let midpoints := valid.map fun p => (p.1 + p.2) / 2
  let ranges := valid.map fun p => p.2 - p.1
  if midpoints = [] then ⟨none, none, .absent, .absent, .absent⟩
  else
    let mean_fr := midpoints.sum / (midpoints.length : ℝ)
    let delta_fr := if ranges = [] then none else some (listMax ranges / 2)
    ⟨some mean_fr, delta_fr, .nichtBetrachtet, .nichtBetrachtet, .nichtBetrachtet⟩

/-! ### Helper lemmas -/

theorem allSome_map_some (xs : List ℝ) : allSome (xs.map some) = some xs := by
  induction xs with
  | nil => rfl
  | cons x xs ih => simp [allSome, ih]

theorem allSome_eq_none_of_mem (parts : List (Option ℝ)) (h : none ∈ parts) :
    allSome parts = none := by
  induction parts with
  | nil => simp at h
  | cons p ps ih =>
    cases p with
    | none => rfl
    | some x =>
      simp only [List.mem_cons, reduceCtorEq, false_or] at h
      simp [allSome, ih h]

theorem le_foldl_max (x : ℝ) (xs : List ℝ) : x ≤ xs.foldl max x := by
  induction xs generalizing x with
  | nil => exact le_refl x
  | cons y ys ih => exact le_trans (le_max_left x y) (ih (max x y))

theorem foldl_min_le (x : ℝ) (xs : List ℝ) : xs.foldl min x ≤ x := by
  induction xs generalizing x with
  | nil => exact le_refl x
  | cons y ys ih => exact le_trans (ih (min x y)) (min_le_left x y)

theorem listMin_le_listMax (xs : List ℝ) (h : xs ≠ []) :
    listMin xs ≤ listMax xs := by
  match xs with
  | [] => exact absurd rfl h
  | x :: rest =>
    exact le_trans (foldl_min_le x rest) (le_foldl_max x rest)

/-! ### Claim theorems -/

/-- Claim C1: for defined friction-force and normal-force pairs with a
strictly positive normal-force center, `calculate_mu_and_delta_mu` returns
center `Fr/Fn` and half-width
`sqrt((dFr/Fn)^2 + (Fr*dFn/Fn^2)^2)`; in particular both half-width inputs
being `0` gives half-width `0`. -/
theorem mu_propagation_formula (frv dfr fnv dfn : ℝ) (hfn : 0 < fnv) :
    calculate_mu_and_delta_mu (some frv) (some dfr) (some fnv) (some dfn) =
      (some (frv / fnv),
        some (Real.sqrt ((dfr / fnv) ^ 2 + (frv * dfn / fnv ^ 2) ^ 2))) ∧
    (dfr = 0 → dfn = 0 →
      Real.sqrt ((dfr / fnv) ^ 2 + (frv * dfn / fnv ^ 2) ^ 2) = 0) := by
  constructor
  · simp only [calculate_mu_and_delta_mu, if_neg (ne_of_gt hfn)]
    have h1 : (1 / fnv * dfr) ^ 2 = (dfr / fnv) ^ 2 := by ring
    have h2 : (frv / fnv ^ 2 * dfn) ^ 2 = (frv * dfn / fnv ^ 2) ^ 2 := by ring
    rw [h1, h2]
  · rintro rfl rfl
    simp [Real.sqrt_zero]

/-- Witness for C1 at `Fr = (1, 0)`, `Fn = (2, 0)`. -/
theorem mu_propagation_formula_witness :
    calculate_mu_and_delta_mu (some 1) (some 0) (some 2) (some 0) =
      (some (1 / 2),
        some (Real.sqrt ((0 / 2) ^ 2 + (1 * 0 / 2 ^ 2) ^ 2))) ∧
    Real.sqrt (((0 : ℝ) / 2) ^ 2 + ((1 : ℝ) * 0 / 2 ^ 2) ^ 2) = 0 := by
  refine ⟨(mu_propagation_formula 1 0 2 0 (by norm_num)).1, ?_⟩
  exact (mu_propagation_formula 1 0 2 0 (by norm_num)).2 rfl rfl

/-- Claim C2 (amended): `calculate_mu_and_delta_mu` returns the undefined
marker for both fields when the friction-force center is undefined, the
normal-force center is undefined, or the normal-force center equals `0`
(the code tests `fn_avg == 0`, not `fn_avg <= 0`). -/
theorem mu_undefined_cases (fr dfr fn dfn : Option ℝ)
    (h : fr = none ∨ fn = none ∨ fn = some 0) :
    calculate_mu_and_delta_mu fr dfr fn dfn = (none, none) := by
  rcases h with rfl | rfl | rfl
  · cases fn <;> rfl
  · cases fr <;> rfl
  · cases fr with
    | none => rfl
    | some frv => simp [calculate_mu_and_delta_mu]

/-- Witness for C2's amended theorem at `Fn = (0, 0)`. -/
theorem mu_undefined_cases_witness :
    calculate_mu_and_delta_mu (some 1) (some 0) (some 0) (some 0) =
      (none, none) :=
  mu_undefined_cases (some 1) (some 0) (some 0) (some 0) (Or.inr (Or.inr rfl))

/-- Counterexample for C2 as stated: at `Fn_center = -1 ≤ 0` (defined and
nonzero) the operation returns a fully defined result, not the undefined
marker. -/
theorem mu_defined_on_negative_fn_center :
    calculate_mu_and_delta_mu (some 1) (some 0) (some (-1)) (some 0) =
      (some (-1), some 0) ∧
    calculate_mu_and_delta_mu (some 1) (some 0) (some (-1)) (some 0) ≠
      (none, none) := by
  have h : calculate_mu_and_delta_mu (some 1) (some 0) (some (-1)) (some 0) =
      (some (-1), some 0) := by
    simp only [calculate_mu_and_delta_mu]
    rw [if_neg (by norm_num)]
    norm_num [Real.sqrt_zero]
  exact ⟨h, by rw [h]; simp⟩

/-- Claim C3: a two-part interval with numeric parts `a ≤ b` reduces to
center `(a+b)/2` and half-width `(b-a)/2`; a single numeric value `x`
reduces to center `x`, half-width `0`. -/
theorem parse_range_interval_and_single (a b x : ℝ) (hab : a ≤ b) :
    parse_range [some a, some b] = (some ((a + b) / 2), some ((b - a) / 2)) ∧
    parse_range [some x] = (some x, some 0) := by
  constructor
  · have hall : allSome [some a, some b] = some [a, b] := allSome_map_some [a, b]
    simp only [parse_range, List.length_cons, List.length_nil, hall]
    rw [if_pos (by norm_num)]
    have hmax : listMax [a, b] = b := by
      simp [listMax, max_eq_right hab]
    have hmin : listMin [a, b] = a := by
      simp [listMin, min_eq_left hab]
    simp [hmax, hmin, List.sum_cons, List.sum_nil]
  · rfl

/-- Witness for C3 at the interval `[1, 3]` and the single value `5`. -/
theorem parse_range_interval_and_single_witness :
    parse_range [some 1, some 3] =
      (some (((1 : ℝ) + 3) / 2), some (((3 : ℝ) - 1) / 2)) ∧
    parse_range [some 5] = (some 5, some 0) :=
  parse_range_interval_and_single 1 3 5 (by norm_num)

/-- Claim C9: for defined mass inputs `calculate_normal_force_and_delta`
returns center `m/1000*9.81` and half-width `dm/1000*9.81`, and the operation
is linear: scaling both inputs by `k` scales both outputs by `k`. -/
theorem normal_force_formula_and_linearity (m dm k : ℝ) :
    calculate_normal_force_and_delta (some m) (some dm) =
      (some (m / 1000 * 9.81), some (dm / 1000 * 9.81)) ∧
    calculate_normal_force_and_delta (some (k * m)) (some (k * dm)) =
      (some (k * (m / 1000 * 9.81)), some (k * (dm / 1000 * 9.81))) := by
  constructor
  · simp only [calculate_normal_force_and_delta, g]
  · simp only [calculate_normal_force_and_delta, g, Prod.mk.injEq,
      Option.some.injEq]
    constructor <;> ring

/-- Claim C4 (amended): the reducer returns the undefined marker for both
fields on any input with an unparseable part rather than raising; an
undefined mass center makes the normal-force output undefined, but an
undefined mass half-width is treated as `0`; an undefined friction- or
normal-force center makes both μ fields undefined, while an undefined
friction-force half-width leaves μ's center defined and only its half-width
undefined; the repeated statistics ignore undefined entries and are undefined
when fewer than two defined values remain. -/
theorem undefined_marker_propagation :
    (∀ parts : List (Option ℝ), none ∈ parts →
      parse_range parts = (none, none)) ∧
    (∀ dm : Option ℝ,
      calculate_normal_force_and_delta none dm = (none, none)) ∧
    (∀ m : ℝ, calculate_normal_force_and_delta (some m) none =
      (some (m / 1000 * g), some 0)) ∧
    (∀ dfr fn dfn : Option ℝ,
      calculate_mu_and_delta_mu none dfr fn dfn = (none, none)) ∧
    (∀ fr dfr dfn : Option ℝ,
      calculate_mu_and_delta_mu fr dfr none dfn = (none, none)) ∧
    (∀ frv fnv : ℝ, ∀ dfn : Option ℝ, fnv ≠ 0 →
      calculate_mu_and_delta_mu (some frv) none (some fnv) dfn =
        (some (frv / fnv), none)) ∧
    (∀ data : List (Option ℝ),
      calculate_std_dev_and_sem data =
        calculate_std_dev_and_sem ((data.filterMap id).map some)) ∧
    (∀ data : List (Option ℝ), (data.filterMap id).length < 2 →
      calculate_std_dev_and_sem data = (none, none)) := by
  refine ⟨?_, ?_, ?_, ?_, ?_, ?_, ?_, ?_⟩
  · intro parts h
    cases parts with
    | nil => simp at h
    | cons p ps =>
      cases ps with
      | nil =>
        cases p with
        | none => rfl
        | some x => simp at h
      | cons q qs =>
        have hl : 2 ≤ (p :: q :: qs).length := by
          simp [List.length_cons]
        simp only [parse_range, if_pos hl, allSome_eq_none_of_mem _ h]
  · intro dm; rfl
  · intro m
    simp only [calculate_normal_force_and_delta, zero_mul]
  · intro dfr fn dfn; cases fn <;> rfl
  · intro fr dfr dfn; cases fr <;> rfl
  · intro frv fnv dfn h
    cases dfn <;> simp [calculate_mu_and_delta_mu, if_neg h]
  · intro data
    simp only [calculate_std_dev_and_sem]
    rw [show ((data.filterMap id).map some).filterMap id = data.filterMap id
      from by simp]
  · intro data h
    simp only [calculate_std_dev_and_sem, if_pos h]

/-- Witness for C4's amended theorem: each clause instantiated at a concrete
input. -/
theorem undefined_marker_propagation_witness :
    parse_range [none, some 5] = (none, none) ∧
    calculate_normal_force_and_delta none (some 1) = (none, none) ∧
    calculate_normal_force_and_delta (some 616) none =
      (some (616 / 1000 * g), some 0) ∧
    calculate_mu_and_delta_mu none (some 1) (some 2) (some 1) = (none, none) ∧
    calculate_mu_and_delta_mu (some 1) (some 1) none (some 1) = (none, none) ∧
    calculate_mu_and_delta_mu (some 1) none (some 2) (some 1) =
      (some (1 / 2), none) ∧
    calculate_std_dev_and_sem [some 1, none] = calculate_std_dev_and_sem [some 1] ∧
    calculate_std_dev_and_sem [some 1, none] = (none, none) := by
  obtain ⟨h1, h2, h3, h4, h5, h6, h7, h8⟩ := undefined_marker_propagation
  refine ⟨h1 _ (by simp), h2 _, h3 616, h4 _ _ _, h5 _ _ _,
    h6 1 2 _ (by norm_num), ?_, h8 _ (by simp)⟩
  simpa using h7 [some 1, none]

/-- Counterexample for C4 as stated: the normal-force operation consumes an
undefined mass half-width yet returns a fully defined result. -/
theorem normal_force_defined_on_undefined_delta :
    calculate_normal_force_and_delta (some 616) none =
      (some 6.04296, some 0) ∧
    calculate_normal_force_and_delta (some 616) none ≠ (none, none) := by
  have h : calculate_normal_force_and_delta (some 616) none =
      (some 6.04296, some 0) := by
    simp only [calculate_normal_force_and_delta, g, zero_mul]
    norm_num
  exact ⟨h, by rw [h]; simp⟩

/-- Claim C10: with a hyphen present the reducer maps all parts (any count
`n ≥ 2`, any order) to center = mean of the parts and half-width =
`(max - min)/2 ≥ 0`; `"1-2-3"` is defined, `"3.3-3.0"` equals `"3.0-3.3"`,
and `"-5"` (split parts `['', '5']`) is undefined for both fields. -/
theorem parse_range_hyphen_split (xs : List ℝ) (hlen : 2 ≤ xs.length) :
    parse_range (xs.map some) =
      (some (xs.sum / (xs.length : ℝ)),
        some ((listMax xs - listMin xs) / 2)) ∧
    0 ≤ (listMax xs - listMin xs) / 2 ∧
    parse_range [some 1, some 2, some 3] = (some 2, some 1) ∧
    parse_range [some 3.3, some 3.0] = parse_range [some 3.0, some 3.3] ∧
    parse_range [none, some 5] = (none, none) := by
  have hne : xs ≠ [] := by
    intro h; rw [h] at hlen; simp at hlen
  refine ⟨?_, ?_, ?_, ?_, ?_⟩
  · simp only [parse_range, allSome_map_some, List.length_map]
    rw [if_pos hlen]
  · have := listMin_le_listMax xs hne
    have h2 : (0 : ℝ) ≤ listMax xs - listMin xs := sub_nonneg.2 this
    linarith
  · have hall : allSome [some 1, some 2, some 3] = some [1, 2, 3] :=
      allSome_map_some [1, 2, 3]
    simp only [parse_range, hall, List.length_cons, List.length_nil]
    rw [if_pos (by norm_num)]
    have hmax : listMax [(1 : ℝ), 2, 3] = 3 := by
      simp only [listMax, List.foldl]
      rw [max_eq_right (by norm_num : (1 : ℝ) ≤ 2),
        max_eq_right (by norm_num : (2 : ℝ) ≤ 3)]
    have hmin : listMin [(1 : ℝ), 2, 3] = 1 := by
      simp only [listMin, List.foldl]
      rw [min_eq_left (by norm_num : (1 : ℝ) ≤ 2),
        min_eq_left (by norm_num : (1 : ℝ) ≤ 3)]
    rw [hmax, hmin]
    norm_num
  · have h1 : allSome [some 3.3, some 3.0] = some [3.3, 3.0] :=
      allSome_map_some [3.3, 3.0]
    have h2 : allSome [some 3.0, some 3.3] = some [3.0, 3.3] :=
      allSome_map_some [3.0, 3.3]
    simp only [parse_range, h1, h2, List.length_cons, List.length_nil]
    rw [if_pos (by norm_num)]
    have hmax1 : listMax [(3.3 : ℝ), 3.0] = 3.3 := by
      simp only [listMax, List.foldl]
      rw [max_eq_left (by norm_num : (3.0 : ℝ) ≤ 3.3)]
    have hmin1 : listMin [(3.3 : ℝ), 3.0] = 3.0 := by
      simp only [listMin, List.foldl]
      rw [min_eq_right (by norm_num : (3.0 : ℝ) ≤ 3.3)]
    have hmax2 : listMax [(3.0 : ℝ), 3.3] = 3.3 := by
      simp only [listMax, List.foldl]
      rw [max_eq_right (by norm_num : (3.0 : ℝ) ≤ 3.3)]
    have hmin2 : listMin [(3.0 : ℝ), 3.3] = 3.0 := by
      simp only [listMin, List.foldl]
      rw [min_eq_left (by norm_num : (3.0 : ℝ) ≤ 3.3)]
    rw [hmax1, hmin1, hmax2, hmin2]
    norm_num
  · have hm : (none : Option ℝ) ∈ [none, some 5] := by simp
    have hl : 2 ≤ ([none, some 5] : List (Option ℝ)).length := by norm_num
    simp only [parse_range, if_pos hl, allSome_eq_none_of_mem _ hm]

/-- Witness for C10 at the two-part list `[0, 1]`. -/
theorem parse_range_hyphen_split_witness :
    parse_range ([(0 : ℝ), 1].map some) =
      (some (([(0 : ℝ), 1].sum / (([(0 : ℝ), 1].length : ℕ) : ℝ))),
        some ((listMax [(0 : ℝ), 1] - listMin [(0 : ℝ), 1]) / 2)) ∧
    0 ≤ (listMax [(0 : ℝ), 1] - listMin [(0 : ℝ), 1]) / 2 := by
  have h := parse_range_hyphen_split [(0 : ℝ), 1] (by norm_num)
  exact ⟨h.1, h.2.1⟩

theorem filterMap_valid_pair_map (rs : List (ℝ × ℝ)) :
    (rs.map fun p => ((some p.1, some p.2) : Option ℝ × Option ℝ)).filterMap
      valid_pair = rs := by
  induction rs with
  | nil => rfl
  | cons p ps ih => simp [valid_pair, ih]

/-- Evaluation lemma for `calculate_error_method_1`: its full output on the
pooled, NaN-free sample, in both the `N ≥ 2` and the `N < 2` regimes. -/
theorem method1_eval (tppf : ℕ → ℝ)
    (readings : List (Option ℝ × Option ℝ)) (pooled : List ℝ) (mean sd : ℝ)
    (hp : pooled = (readings.flatMap fun p => [p.1, p.2]).filterMap id)
    (hm : mean = pooled.sum / (pooled.length : ℝ))
    (hsd : sd = Real.sqrt ((pooled.map fun x => (x - mean) ^ 2).sum /
      (pooled.length : ℝ))) :
    (2 ≤ pooled.length →
      calculate_error_method_1 tppf readings =
        ⟨some mean, some sd, some (sd / Real.sqrt (pooled.length : ℝ)),
          some (tppf (pooled.length - 1) *
            (sd / Real.sqrt (pooled.length : ℝ)))⟩) ∧
    (pooled.length < 2 →
      calculate_error_method_1 tppf readings = ⟨none, none, none, none⟩) := by
  subst hm hsd hp
  constructor
  · intro hN
    have hnot : ¬ ((readings.flatMap fun p => [p.1, p.2]).filterMap id).length
        < 2 := not_lt.2 hN
    simp only [calculate_error_method_1, calculate_std_dev_and_sem,
      calculate_confidence_interval]
    rw [show (((readings.flatMap fun p => [p.1, p.2]).filterMap id).map
      some).filterMap id = (readings.flatMap fun p => [p.1, p.2]).filterMap id
      from by simp]
    rw [if_neg hnot, if_neg hnot, if_neg hnot]
    simp
  · intro hN
    simp only [calculate_error_method_1]
    rw [if_pos hN]

/-- Claim C5: Policy A pools every interval endpoint into one sample; with
`N ≥ 2` defined entries it returns the pooled mean, the population standard
deviation `sqrt(Σ(xi-mean)²/N)` (denominator `N`, not `N-1`), the standard
error `σ/√N`, and the t-based confidence interval `t(N-1)·SEM` over the
pooled set; with fewer than 2 defined values every statistic is undefined. -/
theorem method1_pooled_statistics (tppf : ℕ → ℝ)
    (readings : List (Option ℝ × Option ℝ)) (pooled : List ℝ) (mean sd : ℝ)
    (hp : pooled = (readings.flatMap fun p => [p.1, p.2]).filterMap id)
    (hm : mean = pooled.sum / (pooled.length : ℝ))
    (hsd : sd = Real.sqrt ((pooled.map fun x => (x - mean) ^ 2).sum /
      (pooled.length : ℝ))) :
    (2 ≤ pooled.length →
      calculate_error_method_1 tppf readings =
        ⟨some mean, some sd, some (sd / Real.sqrt (pooled.length : ℝ)),
          some (tppf (pooled.length - 1) *
            (sd / Real.sqrt (pooled.length : ℝ)))⟩) ∧
    (pooled.length < 2 →
      calculate_error_method_1 tppf readings = ⟨none, none, none, none⟩) :=
  method1_eval tppf readings pooled mean sd hp hm hsd

/-- Witness for C5 at the single reading `(0, 1)`: pooled sample `[0, 1]`,
`N = 2`, mean `1/2`, `σ = 1/2`. -/
theorem method1_pooled_statistics_witness :
    calculate_error_method_1 (fun _ => 1) [(some 0, some 1)] =
      ⟨some (1 / 2), some (1 / 2), some (1 / 2 / Real.sqrt 2),
        some (1 * (1 / 2 / Real.sqrt 2))⟩ := by
  have hq : (([(0 : ℝ), 1].map fun x => (x - 1 / 2) ^ 2).sum /
      (([(0 : ℝ), 1].length : ℕ) : ℝ)) = (1 / 2) ^ 2 := by
    simp [List.sum_cons]
    norm_num
  have h := (method1_pooled_statistics (fun _ => 1) [(some 0, some 1)]
      [0, 1] (1 / 2) (1 / 2) (by simp) (by norm_num)
      (by rw [hq, Real.sqrt_sq (by norm_num : (0 : ℝ) ≤ 1 / 2)])).1
      (by norm_num)
  simpa using h

/-- Claim C6: Policy B returns the average of the per-reading interval
centers, a half-width of half the widest interval, and marks σ/SEM/CI as
`'nicht betrachtet'`; on the readings `(3.0, 3.3)`, `(2.95, 3.4)`,
`(2.95, 3.4)` its half-width is `0.45/2 = 0.225`. -/
theorem method2_policyB (rs : List (ℝ × ℝ)) (hne : rs ≠ []) :
    calculate_error_method_2 (rs.map fun p => (some p.1, some p.2)) =
      ⟨some ((rs.map fun p => (p.1 + p.2) / 2).sum / (rs.length : ℝ)),
        some (listMax (rs.map fun p => p.2 - p.1) / 2),
        .nichtBetrachtet, .nichtBetrachtet, .nichtBetrachtet⟩ ∧
    (calculate_error_method_2
        [(some 3.0, some 3.3), (some 2.95, some 3.4),
          (some 2.95, some 3.4)]).delta_fr = some 0.225 := by
  constructor
  · simp only [calculate_error_method_2, filterMap_valid_pair_map]
    rw [if_neg (by simpa using hne)]
    rw [if_neg (by simpa using hne)]
    simp only [List.length_map]
  · have hval : (([(some 3.0, some 3.3), (some 2.95, some 3.4),
        (some 2.95, some 3.4)] : List (Option ℝ × Option ℝ)).filterMap
          valid_pair) = [(3.0, 3.3), (2.95, 3.4), (2.95, 3.4)] := by
      simp [valid_pair]
    have hmax : listMax [(3.3 : ℝ) - 3.0, 3.4 - 2.95, 3.4 - 2.95] =
        3.4 - 2.95 := by
      simp only [listMax, List.foldl]
      rw [max_eq_right (by norm_num : (3.3 : ℝ) - 3.0 ≤ 3.4 - 2.95), max_self]
    simp only [calculate_error_method_2, hval, List.map_cons, List.map_nil]
    rw [if_neg (by simp)]
    rw [if_neg (by simp)]
    simp only [hmax]
    norm_num

/-- Witness for C6 at the single reading `(0, 1)`. -/
theorem method2_policyB_witness :
    calculate_error_method_2 ([((0 : ℝ), 1)].map fun p =>
        (some p.1, some p.2)) =
      ⟨some (([((0 : ℝ), 1)].map fun p => (p.1 + p.2) / 2).sum /
          (([((0 : ℝ), 1)].length : ℕ) : ℝ)),
        some (listMax ([((0 : ℝ), 1)].map fun p => p.2 - p.1) / 2),
        .nichtBetrachtet, .nichtBetrachtet, .nichtBetrachtet⟩ :=
  (method2_policyB [((0 : ℝ), 1)] (by simp)).1

/-- Counterexample for C7 as stated: on the readings `(0, 1)` and
`(10, 12)`, whose interval widths `1` and `2` differ, Policy B's half-width
is `1` while Policy A's SEM exceeds `1`, so the Policy B bound is NOT ≥ the
Policy A SEM-based bound. -/
theorem policyB_below_policyA_sem :
    (calculate_error_method_2
        [(some 0, some 1), (some 10, some 12)]).delta_fr = some 1 ∧
    (calculate_error_method_1 (fun _ => 0)
        [(some 0, some 1), (some 10, some 12)]).sem_fr =
      some (Real.sqrt (451 / 16) / Real.sqrt 4) ∧
    (1 : ℝ) < Real.sqrt (451 / 16) / Real.sqrt 4 ∧
    (1 : ℝ) - 0 ≠ 12 - 10 := by
  refine ⟨?_, ?_, ?_, by norm_num⟩
  · have hval : (([(some 0, some 1), (some 10, some 12)] :
        List (Option ℝ × Option ℝ)).filterMap valid_pair) =
        [(0, 1), (10, 12)] := by
      simp [valid_pair]
    have hmax : listMax [(1 : ℝ) - 0, 12 - 10] = 2 := by
      simp only [listMax, List.foldl]
      rw [max_eq_right (by norm_num : (1 : ℝ) - 0 ≤ 12 - 10)]
      norm_num
    simp only [calculate_error_method_2, hval, List.map_cons, List.map_nil]
    rw [if_neg (by simp), if_neg (by simp)]
    simp only [hmax]
    norm_num
  · have hm : (23 : ℝ) / 4 =
        ([(0 : ℝ), 1, 10, 12].sum / (([(0 : ℝ), 1, 10, 12].length : ℕ) : ℝ)) := by
      norm_num
    have hs : Real.sqrt (451 / 16) =
        Real.sqrt (([(0 : ℝ), 1, 10, 12].map fun x => (x - 23 / 4) ^ 2).sum /
          (([(0 : ℝ), 1, 10, 12].length : ℕ) : ℝ)) := by
      norm_num
    have h := (method1_eval (fun _ => 0) [(some 0, some 1), (some 10, some 12)]
        [0, 1, 10, 12] (23 / 4) (Real.sqrt (451 / 16)) (by simp) hm hs).1
        (by norm_num)
    have h2 := congrArg Method1Result.sem_fr h
    simpa using h2
  · have h2 : (0 : ℝ) < Real.sqrt 4 := Real.sqrt_pos.2 (by norm_num)
    rw [lt_div_iff₀ h2]
    have h4 : Real.sqrt 4 = 2 := by
      rw [show (4 : ℝ) = 2 ^ 2 by norm_num, Real.sqrt_sq (by norm_num)]
    rw [h4]
    have : (2 : ℝ) < Real.sqrt (451 / 16) := by
      rw [show (2 : ℝ) = Real.sqrt (2 ^ 2) from
        (Real.sqrt_sq (by norm_num)).symm]
      exact Real.sqrt_lt_sqrt (by norm_num) (by norm_num)
    linarith

/-- Claim C7 (amended): on the spec's example readings
`(3.0–3.3), (2.95–3.4), (2.95–3.4)`, whose interval widths differ, the two
policies produce different half-widths and Policy B's half-width `0.225` is
strictly greater than Policy A's SEM-based half-width; the domination does
not hold on every input with differing widths. -/
theorem policyA_policyB_spec_example :
    (calculate_error_method_2
        [(some 3.0, some 3.3), (some 2.95, some 3.4),
          (some 2.95, some 3.4)]).delta_fr = some 0.225 ∧
    (calculate_error_method_1 (fun _ => 0)
        [(some 3.0, some 3.3), (some 2.95, some 3.4),
          (some 2.95, some 3.4)]).sem_fr =
      some (Real.sqrt (149 / 3600) / Real.sqrt 6) ∧
    Real.sqrt (149 / 3600) / Real.sqrt 6 < 0.225 ∧
    (3.3 : ℝ) - 3.0 ≠ 3.4 - 2.95 := by
  refine ⟨?_, ?_, ?_, by norm_num⟩
  · have hval : (([(some 3.0, some 3.3), (some 2.95, some 3.4),
        (some 2.95, some 3.4)] : List (Option ℝ × Option ℝ)).filterMap
          valid_pair) = [(3.0, 3.3), (2.95, 3.4), (2.95, 3.4)] := by
      simp [valid_pair]
    have hmax : listMax [(3.3 : ℝ) - 3.0, 3.4 - 2.95, 3.4 - 2.95] =
        3.4 - 2.95 := by
      simp only [listMax, List.foldl]
      rw [max_eq_right (by norm_num : (3.3 : ℝ) - 3.0 ≤ 3.4 - 2.95), max_self]
    simp only [calculate_error_method_2, hval, List.map_cons, List.map_nil]
    rw [if_neg (by simp), if_neg (by simp)]
    simp only [hmax]
    norm_num
  · have hm : (19 : ℝ) / 6 =
        ([(3.0 : ℝ), 3.3, 2.95, 3.4, 2.95, 3.4].sum /
          (([(3.0 : ℝ), 3.3, 2.95, 3.4, 2.95, 3.4].length : ℕ) : ℝ)) := by
      norm_num
    have hs : Real.sqrt (149 / 3600) =
        Real.sqrt (([(3.0 : ℝ), 3.3, 2.95, 3.4, 2.95, 3.4].map fun x =>
          (x - 19 / 6) ^ 2).sum /
            (([(3.0 : ℝ), 3.3, 2.95, 3.4, 2.95, 3.4].length : ℕ) : ℝ)) := by
      norm_num
    have h := (method1_eval (fun _ => 0)
        [(some 3.0, some 3.3), (some 2.95, some 3.4), (some 2.95, some 3.4)]
        [3.0, 3.3, 2.95, 3.4, 2.95, 3.4] (19 / 6) (Real.sqrt (149 / 3600))
        (by simp) hm hs).1 (by norm_num)
    have h2 := congrArg Method1Result.sem_fr h
    simpa using h2
  · have h6 : (0 : ℝ) < Real.sqrt 6 := Real.sqrt_pos.2 (by norm_num)
    rw [div_lt_iff₀ h6]
    rw [Real.sqrt_lt' (by positivity)]
    have hsq : ((0.225 : ℝ) * Real.sqrt 6) ^ 2 = 0.050625 * 6 := by
      rw [mul_pow, Real.sq_sqrt (by norm_num : (0 : ℝ) ≤ 6)]
      norm_num
    rw [hsq]
    norm_num

/-- Counterexample for C8 as stated: at mass `616 g`, Δ `0.1 g`, the
normal-force center is `6.04296 N`, not the `6.0426 N` the claim states. -/
theorem fn_center_not_6_0426 :
    (calculate_normal_force_and_delta (some 616) (some 0.1)).1 =
      some 6.04296 ∧
    (6.04296 : ℝ) ≠ 6.0426 := by
  constructor
  · simp only [calculate_normal_force_and_delta, g]
    norm_num
  · norm_num

/-- Claim C8 (amended): mass `616 g` with half-width `0.1 g` gives
`Fn = (6.04296 N, 0.000981 N)` (the claim's `6.0426` drops a digit);
reducing `"1.65-1.9"` gives `(1.775, 0.125)`, and the friction-coefficient
operation then returns `μ_center ≈ 0.2938` and `μ_half-width ≈ 0.0207`
(both within `10⁻⁴`). -/
theorem end_to_end_scenario :
    parse_range [some 1.65, some 1.9] = (some 1.775, some 0.125) ∧
    calculate_normal_force_and_delta (some 616) (some 0.1) =
      (some 6.04296, some 0.000981) ∧
    calculate_mu_and_delta_mu (some 1.775) (some 0.125) (some 6.04296)
        (some 0.000981) =
      (some (1.775 / 6.04296),
        some (Real.sqrt ((1 / 6.04296 * 0.125) ^ 2 +
          (1.775 / 6.04296 ^ 2 * 0.000981) ^ 2))) ∧
    |1.775 / 6.04296 - (0.2938 : ℝ)| < 0.0001 ∧
    |Real.sqrt ((1 / 6.04296 * 0.125) ^ 2 +
      (1.775 / 6.04296 ^ 2 * 0.000981) ^ 2) - 0.0207| < 0.0001 := by
  refine ⟨?_, ?_, ?_, ?_, ?_⟩
  · have hall : allSome [some 1.65, some 1.9] = some [1.65, 1.9] :=
      allSome_map_some [1.65, 1.9]
    simp only [parse_range, hall, List.length_cons, List.length_nil]
    rw [if_pos (by norm_num)]
    have hmax : listMax [(1.65 : ℝ), 1.9] = 1.9 := by
      simp only [listMax, List.foldl]
      rw [max_eq_right (by norm_num : (1.65 : ℝ) ≤ 1.9)]
    have hmin : listMin [(1.65 : ℝ), 1.9] = 1.65 := by
      simp only [listMin, List.foldl]
      rw [min_eq_left (by norm_num : (1.65 : ℝ) ≤ 1.9)]
    rw [hmax, hmin]
    norm_num
  · simp only [calculate_normal_force_and_delta, g]
    norm_num
  · simp only [calculate_mu_and_delta_mu]
    rw [if_neg (by norm_num : (6.04296 : ℝ) ≠ 0)]
  · rw [abs_sub_lt_iff]
    constructor <;> norm_num
  · have hub : Real.sqrt ((1 / 6.04296 * 0.125) ^ 2 +
        (1.775 / 6.04296 ^ 2 * 0.000981) ^ 2) < 0.0208 := by
      rw [Real.sqrt_lt' (by norm_num)]
      norm_num
    have hlb : (0.0206 : ℝ) < Real.sqrt ((1 / 6.04296 * 0.125) ^ 2 +
        (1.775 / 6.04296 ^ 2 * 0.000981) ^ 2) := by
      rw [Real.lt_sqrt (by positivity)]
      norm_num
    rw [abs_sub_lt_iff]
    constructor <;> linarith

end V10
